import Mathlib

/-!
Shallow embedding of the point-cloud registration and evaluation core of the
sfm_flow addon (`src/reconstruction/components/point_cloud.py`, `model.py`,
`camera.py`).

Scalars are modelled as exact rationals.  External library collaborators
(mathutils `KDTree.find`, `random.shuffle`, `np.linalg.svd`, `math.sqrt`,
`math.acos`, `Vector.length`) are modelled as oracle parameters.  Python
exceptions are modelled with `Option`/`Except` result types.
-/

namespace SfmFlow

abbrev V3 := Fin 3 → ℚ
abbrev V4 := Fin 4 → ℚ
abbrev M4 := Matrix (Fin 4) (Fin 4) ℚ

/-- `PointCloud.transform` (point_cloud.py), 4-D branch: `v_new = m @ v`, then
every coordinate is divided by the last one (`x/w, y/w, z/w`) and the
homogeneous coordinate is reset to `1`. -/
def transformPoint4 (m : M4) (v : V4) : V4 :=
  let w := m.mulVec v
  Fin.snoc (fun i : Fin 3 => w i.castSucc / w 3) 1

/-- `PointCloud.transform` applied to every 4-D vertex of a cloud. -/
def transformCloud4 (m : M4) (pts : List V4) : List V4 :=
  pts.map (transformPoint4 m)

/-- `PointCloud.transform` (point_cloud.py), 3-D branch: the vertex is extended
with `w = 1`, multiplied by `m`, normalised by the resulting `w` and truncated
back to 3-D. -/
def transformPoint3 (m : M4) (v : V3) : V3 :=
  let w := m.mulVec (Fin.snoc v 1)
  fun i => w i.castSucc / w 3

/-- `PointCloud.transform` applied to every 3-D vertex of a cloud. -/
def transformCloud3 (m : M4) (pts : List V3) : List V3 :=
  pts.map (transformPoint3 m)

/-- Python `statistics.mean`: raises `StatisticsError` on an empty list
(modelled as `none`), otherwise the arithmetic mean. -/
def pyMean (l : List ℚ) : Option ℚ :=
  match l with
  | [] => none
  | _ => some (l.sum / l.length)

/-- Python `min` over a non-empty list; raises `ValueError` on an empty one. -/
def pyMin (l : List ℚ) : Option ℚ :=
  match l with
  | [] => none
  | x :: xs => some (xs.foldl min x)

/-- Python `max` over a non-empty list; raises `ValueError` on an empty one. -/
def pyMax (l : List ℚ) : Option ℚ :=
  match l with
  | [] => none
  | x :: xs => some (xs.foldl max x)

/-- Python `statistics.stdev(data, xbar)` (sample standard deviation with a
pre-computed mean); `sqrtO` is the oracle for the irrational square root.
Only ever used by the code under a `len(data) > 1` guard. -/
def pyStdev (sqrtO : ℚ → ℚ) (l : List ℚ) (xbar : ℚ) : ℚ :=
  sqrtO ((l.map (fun x => (x - xbar) ^ 2)).sum / ((l.length - 1 : ℕ) : ℚ))

/-!  `PointCloud` filter state and evaluation (point_cloud.py). -/

/-- The filter-relevant state of a `PointCloud`: `vertices`,
`_discard_vertices`, and `_filter_distance` (`none` models the initial
`float('inf')`). -/
structure PointCloud where
  vertices : List V3
  discardVertices : List ℕ
  filterDistance : Option ℚ

/-- `PointCloud.vertices_filtered`: the vertices whose index is not masked out
by `_discard_vertices`. -/
def verticesFiltered (pc : PointCloud) : List V3 :=
  (pc.vertices.enum.filter (fun p => !(pc.discardVertices.contains p.1))).map (·.2)

/-- The discarded-index list built by `PointCloud.filter_point_cloud`: the
cloud is aligned by `initial_alignment`, and index `i` goes to `to_delete`
when the nearest-neighbour distance of the aligned vertex exceeds
`distance_threshold`.  `kdDist` is the oracle for
`target_pc_kdtree.find(v)[2]`. -/
def filterToDelete (kdDist : V3 → ℚ) (pc : PointCloud) (initialAlignment : M4)
    (distanceThreshold : ℚ) : List ℕ :=
  ((transformCloud3 initialAlignment pc.vertices).enum.filter
      (fun p => decide (distanceThreshold < kdDist p.2))).map (·.1)

/-- `PointCloud.filter_point_cloud`: stores the discarded indices and the
threshold on the cloud (the updated cloud state is returned). -/
def filterPointCloud (kdDist : V3 → ℚ) (pc : PointCloud) (initialAlignment : M4)
    (distanceThreshold : ℚ) : PointCloud :=
  { pc with
      discardVertices := filterToDelete kdDist pc initialAlignment distanceThreshold,
      filterDistance := some distanceThreshold }

/-- The result record of `PointCloud.evaluate`. -/
structure EvalStats where
  dist_mean : ℚ
  dist_std : ℚ
  dist_min : ℚ
  dist_max : ℚ
  used_filtered_cloud : Bool
  filter_threshold : Option ℚ
  full_cloud_size : ℕ
  used_cloud_size : ℕ
  used_cloud_size_percent : ℚ
  discarded_points : ℕ
  deriving DecidableEq

/-- `PointCloud.evaluate`: distance statistics of the (optionally filtered)
cloud against the ground truth, after alignment by
`_object_matrix @ _initial_centroid_matrix`.  `kdFind` is the oracle for
`target_pc_kdtree.find(v)[0]` and `dist` for
`sfm_flow.utils.euclidean_distance`; `sqrtO` feeds `statistics.stdev`.
A `none` result models the `statistics.StatisticsError` raised by `mean`
on an empty distance list. -/
def evaluatePointCloud (kdFind : V3 → V3) (dist : V3 → V3 → ℚ) (sqrtO : ℚ → ℚ)
    (pc : PointCloud) (objectMatrix initialCentroidMatrix : M4)
    (useFilteredCloud : Bool) : Option EvalStats := do
  let srcPc := if useFilteredCloud then verticesFiltered pc else pc.vertices
  let src := transformCloud3 (objectMatrix * initialCentroidMatrix) srcPc
  let d := src.map (fun v => dist v (kdFind v))
  let dMean ← pyMean d
  let dStd := if 1 < d.length then pyStdev sqrtO d dMean else 0
  let dMin ← pyMin d
  let dMax ← pyMax d
  pure { dist_mean := dMean,
         dist_std := dStd,
         dist_min := dMin,
         dist_max := dMax,
         used_filtered_cloud := useFilteredCloud,
         filter_threshold := if useFilteredCloud then pc.filterDistance else none,
         full_cloud_size := pc.vertices.length,
         used_cloud_size := src.length,
         used_cloud_size_percent := (src.length : ℚ) / (pc.vertices.length : ℚ),
         discarded_points := pc.vertices.length - src.length }

/-!  `PointCloud.find_fit_transform` (point_cloud.py). -/

/-- Column-wise mean of a list of homogeneous points: `np.mean(pts, axis=0)`. -/
def centroid4 (pts : List V4) : V4 :=
  fun i => (pts.map (fun v => v i)).sum / (pts.length : ℚ)

/-- The cross-covariance matrix `H = src_c.T @ trg_c` of two centred point
lists (the clouds are stored as K x 4 arrays, so `H` is 4 x 4). -/
def crossCovariance (srcC trgC : List V4) : M4 :=
  Matrix.of fun a b => ((srcC.zip trgC).map (fun p => p.1 a * p.2 b)).sum

/-- The rotation part of `PointCloud.find_fit_transform`: `R = vh.T @ u.T`;
if `det R < 0`, the last row (`d - 1 = 3`) of `vh` is negated in place
(`vh[d-1, :] *= -1.`) and `R` is recomputed. -/
def fitRotation (u vh : M4) : M4 :=
  let R := vh.transpose * u.transpose
  if R.det < 0 then (vh.updateRow 3 ((-1 : ℚ) • vh 3)).transpose * u.transpose
  else R

/-- `PointCloud.find_fit_transform`.  `svd` is the oracle for
`np.linalg.svd(H)` restricted to the pair `(u, vh)`; a genuine factorisation
has `u`, `vh` orthogonal with `H = u @ diag(s) @ vh`.  The function body has
no input-size check and no `raise`: centroids, centred clouds, `H`, the
(possibly corrected) rotation, and the translation written into rows 0-2 of
column 3 of `T = R`. -/
def findFitTransform (svd : M4 → M4 × M4) (src trg : List V4) : M4 :=
  let centroidTrg := centroid4 trg
  let centroidSrc := centroid4 src
  let srcC := src.map (fun v => v - centroidSrc)
  let trgC := trg.map (fun v => v - centroidTrg)
  let H := crossCovariance srcC trgC
  let uvh := svd H
  let R := fitRotation uvh.1 uvh.2
  Matrix.of fun i j =>
    if j = 3 ∧ i ≠ 3 then centroidTrg i - R.mulVec centroidSrc i else R i j

/-- `PointCloud.find_fit_transform` seen in the exception monad: the Python
body contains no `raise` statement (in particular no `DegenerateInputError`,
a name that appears nowhere in the repository), so every call returns
normally. -/
def findFitTransformE (svd : M4 → M4 × M4) (src trg : List V4) :
    Except String M4 :=
  Except.ok (findFitTransform svd src trg)

/-!  The ICP loop of `PointCloud.get_regsitration_to_target`. -/

/-- The plateau threshold `0.0001` of the ICP stopping rule. -/
def icpEpsilon : ℚ := 1 / 10000

/-- The improvement test `(previous_error - mean_error) < 0.0001`.
`previous_error` is `none` while it still holds the initial `float('inf')`,
for which the test is always false (`inf - e = inf`). -/
def icpStop (previousError : Option ℚ) (meanError : ℚ) : Bool :=
  match previousError with
  | none => false
  | some p => decide (p - meanError < icpEpsilon)

/-- The `while current_iter < max_iterations` loop of
`PointCloud.get_regsitration_to_target`.  `sample k src` abstracts one
iteration's correspondence search on the current cloud `src` at iteration
counter `k`: the `random.shuffle` of the indices, the `kdtree.find` queries,
the `np.mean` of the sampled distances and the `find_fit_transform` fit,
returning `(mean_error, T)`.  State: (remaining fuel, `current_iter`, `src`,
`previous_error`, `transforms`). -/
def icpLoop (sample : ℕ → List V4 → ℚ × M4) :
    ℕ → ℕ → List V4 → Option ℚ → List M4 → Option ℚ × List M4
  | 0, _, _, previousError, transforms => (previousError, transforms)
  | fuel + 1, k, src, previousError, transforms =>
    let s := sample k src
    if icpStop previousError s.1 then (previousError, transforms)
    else icpLoop sample fuel (k + 1) (transformCloud4 s.2 src)
          (some s.1) (transforms ++ [s.2])

/-- The ICP loop started from the fresh state of
`get_regsitration_to_target`: `current_iter = 0`,
`previous_error = float('inf')`, `transforms = []`. -/
def icpRun (sample : ℕ → List V4 → ℚ × M4) (maxIterations : ℕ)
    (src : List V4) : Option ℚ × List M4 :=
  icpLoop sample maxIterations 0 src none []

/-- `functools.reduce(lambda am, t: t @ am, transforms)`: `none` models the
`TypeError` raised by `reduce` on an empty sequence with no initial value. -/
def reduceTransforms (transforms : List M4) : Option M4 :=
  match transforms with
  | [] => none
  | t :: ts => some (ts.foldl (fun am T => T * am) t)

/-- `PointCloud.get_regsitration_to_target`: initial alignment of the source
cloud, ICP loop, aggregation of the per-iteration transforms, and the pair
`(align_matrix, previous_error)`.  A `none` result models an uncaught Python
exception escaping the call. -/
def getRegistrationToTarget (sample : ℕ → List V4 → ℚ × M4) (src : List V4)
    (initialAlignment : M4) (maxIterations : ℕ) : Option (M4 × Option ℚ) :=
  let src' := transformCloud4 initialAlignment src
  let r := icpRun sample maxIterations src'
  match reduceTransforms r.2 with
  | none => none
  | some alignMatrix => some (alignMatrix, r.1)

/-- `ReconModel.apply_registration_matrix` (model.py): the registration matrix
left-multiplies the model's current world matrix. -/
def applyRegistrationMatrix (matrix world : M4) : M4 :=
  matrix * world

/-!  A trace view of the ICP loop: the per-iteration quantities the loop
would compute if it never stopped, used to state the stopping rule. -/

/-- The source cloud at the start of ICP iteration `k`. -/
def icpSrcAt (sample : ℕ → List V4 → ℚ × M4) (src : List V4) : ℕ → List V4
  | 0 => src
  | k + 1 => transformCloud4 (sample k (icpSrcAt sample src k)).2 (icpSrcAt sample src k)

/-- The `mean_error` computed at ICP iteration `k`. -/
def icpErrAt (sample : ℕ → List V4 → ℚ × M4) (src : List V4) (k : ℕ) : ℚ :=
  (sample k (icpSrcAt sample src k)).1

/-- The fit transform `T` computed at ICP iteration `k`. -/
def icpTAt (sample : ℕ → List V4 → ℚ × M4) (src : List V4) (k : ℕ) : M4 :=
  (sample k (icpSrcAt sample src k)).2

/-- `previous_error` at the start of ICP iteration `k`. -/
def icpPrevAt (sample : ℕ → List V4 → ℚ × M4) (src : List V4) : ℕ → Option ℚ
  | 0 => none
  | k + 1 => some (icpErrAt sample src k)

/-- Whether the improvement test stops the loop at iteration `k`. -/
def icpTestAt (sample : ℕ → List V4 → ℚ × M4) (src : List V4) (k : ℕ) : Bool :=
  icpStop (icpPrevAt sample src k) (icpErrAt sample src k)

/-!  Camera-pose evaluation (`ReconCamera.evaluate`, camera.py, and the
aggregation in `ReconModel.evaluate`, model.py). -/

/-- Dot product of two 3-D vectors. -/
def dot3 (a b : V3) : ℚ := ∑ i, a i * b i

/-- `cos_theta = (gt_lookat @ self.look_at) / (gt_lookat.length * self.look_at.length)`;
`len` is the oracle for mathutils `Vector.length` (a floating-point square
root). -/
def cosTheta (len : V3 → ℚ) (gtLookat lookAt : V3) : ℚ :=
  dot3 gtLookat lookAt / (len gtLookat * len lookAt)

/-- The rounding-error correction applied to `cos_theta` in
`ReconCamera.evaluate`: only an overshoot in the open interval (1.0, 1.1) is
snapped back to exactly 1.0. -/
def cosThetaFix (c : ℚ) : ℚ :=
  if 1 < c ∧ c < 11 / 10 then 1 else c

/-- The look-at angle step of `ReconCamera.evaluate`: the corrected cosine
goes through `math.acos`, which raises `ValueError` (a math domain error,
modelled as `none`) outside [-1, 1].  `acosO` is the oracle for the
irrational `acos` values on the valid domain. -/
def lookatDifferenceRad (acosO : ℚ → ℚ) (rawCosTheta : ℚ) : Option ℚ :=
  let c := cosThetaFix rawCosTheta
  if -1 ≤ c ∧ c ≤ 1 then some (acosO c) else none

/-- The three per-camera metrics consumed by the aggregation in
`ReconModel.evaluate`. -/
structure CamEval where
  position_distance : ℚ
  lookat_difference_deg : ℚ
  rotation_difference_deg : ℚ

/-- The camera part of the result of `ReconModel.evaluate`. -/
structure CamStats where
  pos_mean : ℚ
  pos_std : ℚ
  pos_min : ℚ
  pos_max : ℚ
  lookat_mean : ℚ
  lookat_std : ℚ
  lookat_min : ℚ
  lookat_max : ℚ
  rot_mean : ℚ
  rot_std : ℚ
  rot_min : ℚ
  rot_max : ℚ
  camera_count : ℤ
  reconstructed_camera_count : ℕ
  reconstructed_camera_percent : ℚ
  deriving DecidableEq

/-- `gt_camera_count = (scene.frame_end - scene.frame_start + 1) // scene.frame_step`
(Python floor division). -/
def gtCameraCount (frameStart frameEnd frameStep : ℤ) : ℤ :=
  Int.fdiv (frameEnd - frameStart + 1) frameStep

/-- Python true division: raises `ZeroDivisionError` when the denominator is
zero. -/
def pyDiv (a b : ℚ) : Option ℚ :=
  if b = 0 then none else some (a / b)

/-- The camera-pose aggregation of `ReconModel.evaluate` (model.py): the three
metric lists are extracted from the per-camera results, the three means are
computed first (`statistics.mean` raises `StatisticsError` on an empty list),
then the result record is filled with guarded standard deviations, `min`/`max`
values, the camera counts and the reconstructed/total ratio.  A `none` result
models the raised exception. -/
def evaluateCameras (sqrtO : ℚ → ℚ) (camResults : List CamEval)
    (frameStart frameEnd frameStep : ℤ) : Option CamStats := do
  let camPosDists := camResults.map (·.position_distance)
  let camLookatDiffs := camResults.map (·.lookat_difference_deg)
  let camRotDiffs := camResults.map (·.rotation_difference_deg)
  let gtCount := gtCameraCount frameStart frameEnd frameStep
  let posMean ← pyMean camPosDists
  let lookatMean ← pyMean camLookatDiffs
  let rotMean ← pyMean camRotDiffs
  let posMin ← pyMin camPosDists
  let posMax ← pyMax camPosDists
  let lookatMin ← pyMin camLookatDiffs
  let lookatMax ← pyMax camLookatDiffs
  let rotMin ← pyMin camRotDiffs
  let rotMax ← pyMax camRotDiffs
  let percent ← pyDiv (camResults.length : ℚ) (gtCount : ℚ)
  pure { pos_mean := posMean,
         pos_std := if 1 < camPosDists.length then pyStdev sqrtO camPosDists posMean else 0,
         pos_min := posMin,
         pos_max := posMax,
         lookat_mean := lookatMean,
         lookat_std := if 1 < camLookatDiffs.length then pyStdev sqrtO camLookatDiffs lookatMean else 0,
         lookat_min := lookatMin,
         lookat_max := lookatMax,
         rot_mean := rotMean,
         rot_std := if 1 < camRotDiffs.length then pyStdev sqrtO camRotDiffs rotMean else 0,
         rot_min := rotMin,
         rot_max := rotMax,
         camera_count := gtCount,
         reconstructed_camera_count := camResults.length,
         reconstructed_camera_percent := percent }

/-!  `PointCloud.__init__` / `PointCloud.add_point` (point_cloud.py). -/

/-- The `add_point`-relevant state of a `PointCloud`: the np arrays `vertices`
and `colors` are modelled as total functions from indices (`np.empty` leaves
them with arbitrary initial contents), `_last_point_set` is the Python int
starting at -1. -/
@[ext]
structure CloudFillState where
  point_count : ℕ
  vertices : ℕ → V3
  colors : ℕ → V3
  last_point_set : ℤ

/-- `PointCloud.__init__(point_count)`: arrays allocated with arbitrary
(`np.empty`) contents, `_last_point_set = -1`. -/
def initCloud (pointCount : ℕ) (initV initC : ℕ → V3) : CloudFillState :=
  { point_count := pointCount
    vertices := initV
    colors := initC
    last_point_set := -1 }

/-- `PointCloud.add_point`: raises `RuntimeError` (before any mutation) when
`_last_point_set + 1 >= point_count`; otherwise advances `_last_point_set`
and writes the vertex and colour at the new index. -/
def addPoint (pc : CloudFillState) (position color : V3) :
    Except String CloudFillState :=
  if pc.last_point_set + 1 ≥ (pc.point_count : ℤ) then
    Except.error "Trying to set more points than cloud dimensions!"
  else
    let idx := (pc.last_point_set + 1).toNat
    Except.ok { pc with
      last_point_set := pc.last_point_set + 1
      vertices := Function.update pc.vertices idx position
      colors := Function.update pc.colors idx color }

/-- A sequence of `add_point` calls, in call order. -/
def addPoints (pts : List (V3 × V3)) (pc : CloudFillState) :
    Except String CloudFillState :=
  pts.foldlM (fun s p => addPoint s p.1 p.2) pc

/-!  Helper lemmas about the transform aggregation. -/

lemma foldl_mul_eq_reverse_prod (ts : List M4) (a : M4) :
    ts.foldl (fun am T => T * am) a = ts.reverse.prod * a := by
  induction ts generalizing a with
  | nil => simp
  | cons t ts ih => simp [ih, mul_assoc]

lemma foldl_mulVec_eq_reverse_prod (ts : List M4) (v : V4) :
    ts.foldl (fun w T => T.mulVec w) v = ts.reverse.prod.mulVec v := by
  induction ts generalizing v with
  | nil => simp [Matrix.one_mulVec]
  | cons t ts ih => simp [ih, Matrix.mulVec_mulVec]

/-- **C1.**  Whenever `get_regsitration_to_target` records at least one
per-iteration transform, it returns the pair of the aggregated transform and
`previous_error`, the aggregated transform is the matrix product
`T_last * ... * T_1` of the recorded per-iteration transforms (most recent
leftmost), and after `apply_registration_matrix` combines it with the
caller-supplied initial alignment, the full matrix applied to a point acts as:
point, then `initial_transform`, then `T_1`, ..., then `T_last`
(chronological order, first-computed applied first). -/
theorem icp_aggregate_is_chronological_composition
    (sample : ℕ → List V4 → ℚ × M4) (src : List V4) (initialAlignment : M4)
    (maxIterations : ℕ) (p : V4)
    (h : (icpRun sample maxIterations (transformCloud4 initialAlignment src)).2 ≠ []) :
    ∃ A,
      getRegistrationToTarget sample src initialAlignment maxIterations =
        some (A, (icpRun sample maxIterations (transformCloud4 initialAlignment src)).1) ∧
      A = ((icpRun sample maxIterations (transformCloud4 initialAlignment src)).2).reverse.prod ∧
      (applyRegistrationMatrix A initialAlignment).mulVec p =
        ((icpRun sample maxIterations (transformCloud4 initialAlignment src)).2).foldl
          (fun w T => T.mulVec w) (initialAlignment.mulVec p) := by
  obtain ⟨t, rest, hts⟩ := List.exists_cons_of_ne_nil h
  refine ⟨((icpRun sample maxIterations (transformCloud4 initialAlignment src)).2).reverse.prod,
    ?_, rfl, ?_⟩
  · simp only [getRegistrationToTarget]
    rw [hts]
    simp [reduceTransforms, foldl_mul_eq_reverse_prod]
  · simp [applyRegistrationMatrix, foldl_mulVec_eq_reverse_prod, Matrix.mulVec_mulVec]

/-- Witness for C1: a run with one recorded transform. -/
theorem icp_aggregate_is_chronological_composition_witness :
    ∃ A,
      getRegistrationToTarget (fun _ _ => ((1 : ℚ), (1 : M4))) [] 1 1 =
        some (A, (icpRun (fun _ _ => ((1 : ℚ), (1 : M4))) 1 (transformCloud4 1 [])).1) ∧
      A = ((icpRun (fun _ _ => ((1 : ℚ), (1 : M4))) 1 (transformCloud4 1 [])).2).reverse.prod ∧
      (applyRegistrationMatrix A 1).mulVec (fun _ => 0) =
        ((icpRun (fun _ _ => ((1 : ℚ), (1 : M4))) 1 (transformCloud4 1 [])).2).foldl
          (fun w T => T.mulVec w) ((1 : M4).mulVec (fun _ => 0)) :=
  icp_aggregate_is_chronological_composition (fun _ _ => ((1 : ℚ), (1 : M4))) [] 1 1
    (fun _ => 0) (by simp [icpRun, icpLoop, icpStop, transformCloud4])

/-- **C4 counterexample.** Calling `get_regsitration_to_target` with
`max_iterations = 0` leaves the transform list empty, so the final
`functools.reduce` raises `TypeError` (modelled as `none`): the call does not
return the initial transform together with an infinite error. -/
theorem registration_zero_iterations_counterexample :
    getRegistrationToTarget (fun _ _ => ((1 : ℚ), (1 : M4))) [] 1 0 = none := rfl

/-- **C4 (amended).** For every call with `max_iterations = 0` the loop body
never runs, the transform list stays empty, and the aggregation step raises
`TypeError` from reducing an empty sequence (modelled as `none`); no
`(initial_transform, error)` pair is returned. -/
theorem registration_zero_iterations_always_raises
    (sample : ℕ → List V4 → ℚ × M4) (src : List V4) (initialAlignment : M4) :
    getRegistrationToTarget sample src initialAlignment 0 = none := rfl

/-!  Helper lemmas relating the ICP loop to its trace view. -/

lemma icpLoop_succ (sample : ℕ → List V4 → ℚ × M4) (fuel k : ℕ) (src : List V4)
    (prev : Option ℚ) (ts : List M4) :
    icpLoop sample (fuel + 1) k src prev ts =
      if icpStop prev (sample k src).1 then (prev, ts)
      else icpLoop sample fuel (k + 1) (transformCloud4 (sample k src).2 src)
            (some (sample k src).1) (ts ++ [(sample k src).2]) := rfl

lemma icpLoop_no_stop (sample : ℕ → List V4 → ℚ × M4) (src : List V4)
    (fuel : ℕ) :
    ∀ (k : ℕ) (ts : List M4),
      (∀ j, j < fuel → icpTestAt sample src (k + j) = false) →
      icpLoop sample fuel k (icpSrcAt sample src k) (icpPrevAt sample src k) ts =
        (icpPrevAt sample src (k + fuel),
         ts ++ (List.range' k fuel).map (icpTAt sample src)) := by
  induction fuel with
  | zero => intro k ts _; simp [icpLoop]
  | succ fuel ih =>
    intro k ts h
    have h0 : icpTestAt sample src k = false := by
      simpa using h 0 (Nat.succ_pos _)
    rw [icpLoop_succ]
    have hcond : icpStop (icpPrevAt sample src k)
        ((sample k (icpSrcAt sample src k))).1 = false := h0
    rw [hcond]
    simp only [Bool.false_eq_true, if_false]
    have hstep :
        icpLoop sample fuel (k + 1)
          (transformCloud4 ((sample k (icpSrcAt sample src k))).2 (icpSrcAt sample src k))
          (some ((sample k (icpSrcAt sample src k))).1)
          (ts ++ [(sample k (icpSrcAt sample src k)).2]) =
        icpLoop sample fuel (k + 1) (icpSrcAt sample src (k + 1))
          (icpPrevAt sample src (k + 1)) (ts ++ [icpTAt sample src k]) := rfl
    rw [hstep, ih (k + 1) (ts ++ [icpTAt sample src k])
      (fun j hj => by
        have h2 := h (j + 1) (by omega)
        have he : k + 1 + j = k + (j + 1) := by omega
        rw [he]
        exact h2)]
    rw [List.range'_succ]
    have he : k + 1 + fuel = k + (fuel + 1) := by omega
    rw [he]
    simp

lemma icpLoop_stop_at (sample : ℕ → List V4 → ℚ × M4) (src : List V4) :
    ∀ (j fuel k : ℕ) (ts : List M4), j < fuel →
      (∀ i, i < j → icpTestAt sample src (k + i) = false) →
      icpTestAt sample src (k + j) = true →
      icpLoop sample fuel k (icpSrcAt sample src k) (icpPrevAt sample src k) ts =
        (icpPrevAt sample src (k + j),
         ts ++ (List.range' k j).map (icpTAt sample src)) := by
  intro j
  induction j with
  | zero =>
    intro fuel k ts hf _ htrue
    obtain ⟨f, rfl⟩ : ∃ f, fuel = f + 1 := ⟨fuel - 1, by omega⟩
    rw [icpLoop_succ]
    have hcond : icpStop (icpPrevAt sample src k)
        ((sample k (icpSrcAt sample src k))).1 = true := by simpa using htrue
    rw [hcond]
    simp
  | succ j ih =>
    intro fuel k ts hf hfalse htrue
    obtain ⟨f, rfl⟩ : ∃ f, fuel = f + 1 := ⟨fuel - 1, by omega⟩
    have h0 : icpTestAt sample src k = false := by
      simpa using hfalse 0 (Nat.succ_pos _)
    rw [icpLoop_succ]
    have hcond : icpStop (icpPrevAt sample src k)
        ((sample k (icpSrcAt sample src k))).1 = false := h0
    rw [hcond]
    simp only [Bool.false_eq_true, if_false]
    have hstep :
        icpLoop sample f (k + 1)
          (transformCloud4 ((sample k (icpSrcAt sample src k))).2 (icpSrcAt sample src k))
          (some ((sample k (icpSrcAt sample src k))).1)
          (ts ++ [(sample k (icpSrcAt sample src k)).2]) =
        icpLoop sample f (k + 1) (icpSrcAt sample src (k + 1))
          (icpPrevAt sample src (k + 1)) (ts ++ [icpTAt sample src k]) := rfl
    rw [hstep, ih f (k + 1) (ts ++ [icpTAt sample src k]) (by omega)
      (fun i hi => by
        have h2 := hfalse (i + 1) (by omega)
        have he : k + 1 + i = k + (i + 1) := by omega
        rw [he]
        exact h2)
      (by
        have he : k + 1 + j = k + (j + 1) := by omega
        rw [he]
        exact htrue)]
    rw [List.range'_succ]
    have he : k + 1 + j = k + (j + 1) := by omega
    rw [he]
    simp

/-- **C2.**  The stopping rule of the ICP loop of
`get_regsitration_to_target`, for any `max_iterations`, against the trace of
per-iteration mean errors `icpErrAt`:
(i) if the improvement test `previous_error - mean_error < 1e-4` first
triggers at iteration `k < max_iterations`, the loop stops there and the
error returned alongside the transforms is `icpErrAt (k-1)` — the last
accepted error from before the failed improvement test, not the newly
computed `icpErrAt k` of the stopping iteration — with exactly the first `k`
fitted transforms recorded;
(ii) if the test never triggers, the loop runs all `max_iterations`
iterations and returns the `previous_error` left by the last iteration. -/
theorem icp_stopping_rule (sample : ℕ → List V4 → ℚ × M4) (src : List V4)
    (maxIterations : ℕ) :
    (∀ k, k < maxIterations →
      (∀ j, j < k → icpTestAt sample src j = false) →
      icpTestAt sample src k = true →
      icpRun sample maxIterations src =
        (some (icpErrAt sample src (k - 1)),
         (List.range k).map (icpTAt sample src)))
    ∧ ((∀ j, j < maxIterations → icpTestAt sample src j = false) →
      icpRun sample maxIterations src =
        (icpPrevAt sample src maxIterations,
         (List.range maxIterations).map (icpTAt sample src))) := by
  constructor
  · intro k hk hfalse htrue
    obtain ⟨k', rfl⟩ : ∃ k', k = k' + 1 := by
      cases k with
      | zero => exact absurd htrue (by simp [icpTestAt, icpPrevAt, icpStop])
      | succ k' => exact ⟨k', rfl⟩
    have := icpLoop_stop_at sample src (k' + 1) maxIterations 0 [] hk
      (fun i hi => by simpa using hfalse i hi) (by simpa using htrue)
    simpa [icpRun, icpPrevAt, List.range_eq_range'] using this
  · intro hfalse
    have := icpLoop_no_stop sample src maxIterations 0 []
      (fun j hj => by simpa using hfalse j hj)
    simpa [icpRun, List.range_eq_range'] using this

/-- Witness for C2: with a constant per-iteration oracle the improvement test
first triggers at iteration 1 and the loop returns the error of iteration 0. -/
theorem icp_stopping_rule_witness :
    icpRun (fun _ _ => ((1 : ℚ), (1 : M4))) 3 [] =
      (some (icpErrAt (fun _ _ => ((1 : ℚ), (1 : M4))) [] 0),
       (List.range 1).map (icpTAt (fun _ _ => ((1 : ℚ), (1 : M4))) [])) :=
  (icp_stopping_rule (fun _ _ => ((1 : ℚ), (1 : M4))) [] 3).1 1 (by omega)
    (fun j hj => by
      have hj0 : j = 0 := by omega
      subst hj0
      rfl)
    (by norm_num [icpTestAt, icpStop, icpPrevAt, icpErrAt, icpSrcAt, icpEpsilon])

/-!  C3: the reflection correction in `find_fit_transform`. -/

lemma det_transpose_mul_transpose (u vh : M4) :
    (vh.transpose * u.transpose).det = vh.det * u.det := by
  rw [Matrix.det_mul, Matrix.det_transpose, Matrix.det_transpose]

/-- **C3.**  For any SVD factors `u`, `vh` returned by `np.linalg.svd`
(orthogonal matrices), the rotation computed by `find_fit_transform` — with
the last row of `vh` negated and `R` recomputed whenever `det R < 0` — has
determinant exactly +1: a proper rotation is returned even for
correspondences whose uncorrected `R = V·Uᵀ` is a reflection. -/
theorem fitRotation_proper_rotation (u vh : M4)
    (hu : u * u.transpose = 1) (hvh : vh * vh.transpose = 1) :
    (fitRotation u vh).det = 1 := by
  have hdu : u.det * u.det = 1 := by
    have hd := congrArg Matrix.det hu
    rwa [Matrix.det_mul, Matrix.det_transpose, Matrix.det_one] at hd
  have hdvh : vh.det * vh.det = 1 := by
    have hd := congrArg Matrix.det hvh
    rwa [Matrix.det_mul, Matrix.det_transpose, Matrix.det_one] at hd
  have hcases : vh.det * u.det = 1 ∨ vh.det * u.det = -1 := by
    apply mul_self_eq_one_iff.mp
    calc (vh.det * u.det) * (vh.det * u.det)
        = (vh.det * vh.det) * (u.det * u.det) := by ring
      _ = 1 := by rw [hdu, hdvh, mul_one]
  simp only [fitRotation]
  split_ifs with hneg
  · have hm1 : vh.det * u.det = -1 := by
      rcases hcases with h1 | h1
      · rw [det_transpose_mul_transpose, h1] at hneg
        norm_num at hneg
      · exact h1
    rw [Matrix.det_mul, Matrix.det_transpose, Matrix.det_transpose,
      Matrix.det_updateRow_smul, Matrix.updateRow_eq_self]
    calc -1 * vh.det * u.det = -(vh.det * u.det) := by ring
      _ = 1 := by rw [hm1]; norm_num
  · rcases hcases with h1 | h1
    · rw [det_transpose_mul_transpose, h1]
    · exact absurd (by rw [det_transpose_mul_transpose, h1]; norm_num) hneg

/-- A concrete orthogonal `vh` whose uncorrected `R = vhᵀ · 1ᵀ` is a
reflection (determinant -1). -/
def vhReflection : M4 :=
  Matrix.diagonal (fun i => if i = 3 then (-1 : ℚ) else 1)

/-- Witness for C3: the correction branch fires on the reflection factors
`(u, vh) = (1, vhReflection)` and still yields determinant +1. -/
theorem fitRotation_proper_rotation_witness :
    ((1 : M4) * (1 : M4).transpose = 1 ∧
      vhReflection * vhReflection.transpose = 1) ∧
    (fitRotation 1 vhReflection).det = 1 := by
  have h1 : (1 : M4) * (1 : M4).transpose = 1 := by simp
  have h2 : vhReflection * vhReflection.transpose = 1 := by
    unfold vhReflection
    rw [Matrix.diagonal_transpose, Matrix.diagonal_mul_diagonal]
    have hd : (fun i : Fin 4 => (if i = 3 then (-1 : ℚ) else 1) *
        (if i = 3 then (-1 : ℚ) else 1)) = fun _ => (1 : ℚ) := by
      funext i
      by_cases hi : i = 3 <;> simp [hi]
    rw [hd, Matrix.diagonal_one]
  exact ⟨⟨h1, h2⟩, fitRotation_proper_rotation 1 vhReflection h1 h2⟩

/-!  C5: `find_fit_transform` on a degenerate (2-point) correspondence. -/

lemma fitRotation_one : fitRotation (1 : M4) 1 = 1 := by
  simp [fitRotation]

/-- A two-point correspondence: both clouds are {(0,0,0,1), (2,0,0,1)}
(homogeneous coordinates, as fed to `find_fit_transform` by the ICP loop). -/
def degSrc : List V4 := [![0, 0, 0, 1], ![2, 0, 0, 1]]

/-- The cross-covariance matrix `H` that `find_fit_transform` computes on the
correspondence `degSrc`/`degSrc`. -/
def degH : M4 :=
  crossCovariance (degSrc.map (fun v => v - centroid4 degSrc))
    (degSrc.map (fun v => v - centroid4 degSrc))

lemma centroid4_degSrc : centroid4 degSrc = ![1, 0, 0, 1] := by
  funext i
  fin_cases i <;> simp [centroid4, degSrc]

lemma srcC_degSrc : degSrc.map (fun v => v - centroid4 degSrc) =
    [![-1, 0, 0, 0], ![1, 0, 0, 0]] := by
  rw [centroid4_degSrc]
  simp [degSrc]
  norm_num

lemma degH_eq : degH = Matrix.diagonal ![2, 0, 0, 0] := by
  unfold degH
  rw [srcC_degSrc]
  ext a b
  fin_cases a <;> fin_cases b <;> simp [crossCovariance, Matrix.diagonal] <;> norm_num

lemma find_fit_degSrc_eval (svd : M4 → M4 × M4) (hsvd : svd degH = (1, 1)) :
    findFitTransformE svd degSrc degSrc = Except.ok 1 := by
  have hbody : findFitTransform svd degSrc degSrc =
      Matrix.of fun i j =>
        if j = 3 ∧ i ≠ 3 then
          centroid4 degSrc i -
            (fitRotation (svd degH).1 (svd degH).2).mulVec (centroid4 degSrc) i
        else (fitRotation (svd degH).1 (svd degH).2) i j := rfl
  unfold findFitTransformE
  rw [hbody, hsvd]
  congr 1
  ext i j
  by_cases h3 : j = 3 ∧ i ≠ 3
  · obtain ⟨hj, hi⟩ := h3
    subst hj
    simp [fitRotation_one, Matrix.one_mulVec, Matrix.one_apply_ne hi, hi]
  · simp [fitRotation_one, h3]

/-- **C5 counterexample.** `find_fit_transform` called on the 2-point
correspondence `degSrc`/`degSrc` (fewer than 3 points) does not fail with
`DegenerateInputError` (no such class exists anywhere in the repository, and
the function performs no size check): it returns the identity fit transform.
The SVD factors `(1, 1)` used are a genuine factorisation, since the
cross-covariance is the diagonal matrix `diag(2, 0, 0, 0)`. -/
theorem find_fit_two_points_counterexample :
    degH = Matrix.diagonal ![2, 0, 0, 0] ∧
    findFitTransformE (fun _ => (1, 1)) degSrc degSrc = Except.ok 1 := by
  exact ⟨degH_eq, find_fit_degSrc_eval (fun _ => (1, 1)) rfl⟩

/-- **C5 (amended).** `find_fit_transform` performs no minimum-point check and
raises no error on fewer than 3 correspondences: for any SVD oracle returning
the factors `(1, 1)` on `degH`, the 2-point call `degSrc`/`degSrc` returns
`Except.ok` with the identity transform instead of failing. -/
theorem find_fit_no_min_points_check (svd : M4 → M4 × M4)
    (hsvd : svd degH = (1, 1)) :
    findFitTransformE svd degSrc degSrc = Except.ok 1 :=
  find_fit_degSrc_eval svd hsvd

/-- Witness for the amended C5 theorem. -/
theorem find_fit_no_min_points_check_witness :
    findFitTransformE (fun _ => (1, 1)) degSrc degSrc = Except.ok 1 :=
  find_fit_no_min_points_check (fun _ => (1, 1)) rfl

/-!  C6: camera-pose aggregation with zero matched cameras. -/

/-- **C6 counterexample.** With zero matched cameras the aggregation of
`ReconModel.evaluate` raises `statistics.StatisticsError` from
`mean(cam_pos_dists)` on an empty list (modelled as `none`): it is an
"other statistics error", not the `NoDataError` the claim describes (no
`NoDataError` class exists anywhere in the repository). -/
theorem evaluate_cameras_empty_counterexample :
    evaluateCameras (fun q => q) [] 1 10 1 = none := rfl

/-- **C6 (amended).** Whenever zero reconstructed cameras are available, the
camera-pose evaluation raises `statistics.StatisticsError` (the `mean` of an
empty metric list, modelled as `none`): it neither produces statistics nor
silently returns 0, but the error raised is a statistics error, not a
`NoDataError`. -/
theorem evaluate_cameras_empty_raises (sqrtO : ℚ → ℚ)
    (frameStart frameEnd frameStep : ℤ) :
    evaluateCameras sqrtO [] frameStart frameEnd frameStep = none := rfl

/-!  C8: monotonicity of the point-cloud filter in the threshold. -/

/-- **C8.**  For a fixed cloud, fixed alignment and fixed ground-truth
nearest-neighbour oracle, raising the distance threshold from `t1` to
`t2 ≥ t1` yields a discarded-index set that is a subset of the one produced
by `t1`, and the discarded count never increases. -/
theorem filter_threshold_monotone (kdDist : V3 → ℚ) (pc : PointCloud)
    (initialAlignment : M4) (t1 t2 : ℚ) (h : t1 ≤ t2) :
    (filterPointCloud kdDist pc initialAlignment t2).discardVertices ⊆
      (filterPointCloud kdDist pc initialAlignment t1).discardVertices ∧
    (filterPointCloud kdDist pc initialAlignment t2).discardVertices.length ≤
      (filterPointCloud kdDist pc initialAlignment t1).discardVertices.length := by
  have hsub : ((transformCloud3 initialAlignment pc.vertices).enum.filter
      (fun p => decide (t2 < kdDist p.2))).Sublist
      ((transformCloud3 initialAlignment pc.vertices).enum.filter
      (fun p => decide (t1 < kdDist p.2))) := by
    apply List.monotone_filter_right
    intro p hp
    simp only [decide_eq_true_eq] at hp ⊢
    exact lt_of_le_of_lt h hp
  have hmap := hsub.map (fun p : ℕ × V3 => p.1)
  exact ⟨hmap.subset, hmap.length_le⟩

/-- Witness for C8 at a concrete cloud, oracle and threshold pair 1 ≤ 2. -/
theorem filter_threshold_monotone_witness :
    (filterPointCloud (fun _ => 3) ⟨[fun _ => 0], [], none⟩ 1 2).discardVertices ⊆
      (filterPointCloud (fun _ => 3) ⟨[fun _ => 0], [], none⟩ 1 1).discardVertices ∧
    (filterPointCloud (fun _ => 3) ⟨[fun _ => 0], [], none⟩ 1 2).discardVertices.length ≤
      (filterPointCloud (fun _ => 3) ⟨[fun _ => 0], [], none⟩ 1 1).discardVertices.length :=
  filter_threshold_monotone (fun _ => 3) ⟨[fun _ => 0], [], none⟩ 1 1 2 (by norm_num)

/-!  C9: the look-at `acos` domain correction. -/

/-- **C9 counterexample.** The code corrects `cos_theta` only in the open
interval (1.0, 1.1).  With mathutils float lengths of 0.9999999 for the two
unit look-at vectors (a rounding of the exact length 1.0), the raw cosine of
the antiparallel pair (1,0,0) / (-1,0,0) falls slightly below -1; the
correction leaves it unchanged and `math.acos` raises a math domain error
(`none`): the computation is not total and the cosine is not clamped on the
lower side. -/
theorem lookat_acos_domain_error_counterexample :
    lookatDifferenceRad (fun q => q)
      (cosTheta (fun _ => 9999999 / 10000000) ![1, 0, 0] ![-1, 0, 0]) = none := by
  norm_num [lookatDifferenceRad, cosThetaFix, cosTheta, dot3, Fin.sum_univ_three]

/-- **C9 (amended).** The rounding correction is one-sided: the look-at
`acos` computation succeeds exactly when the raw cosine lies in [-1, 1] or
in the snapped interval (1, 1.1); a cosine below -1 (or at/above 1.1) raises
a math domain error instead of being clamped. -/
theorem lookat_acos_defined_iff (acosO : ℚ → ℚ) (c : ℚ) :
    (lookatDifferenceRad acosO c).isSome = true ↔ (-1 ≤ c ∧ c < 11 / 10) := by
  simp only [lookatDifferenceRad, cosThetaFix]
  split_ifs with h1 h2 h2
  · exact ⟨fun _ => ⟨by linarith [h1.1], h1.2⟩, fun _ => rfl⟩
  · exact absurd ⟨by norm_num, le_refl (1 : ℚ)⟩ h2
  · exact ⟨fun _ => ⟨h2.1, by linarith [h2.2]⟩, fun _ => rfl⟩
  · constructor
    · intro hff
      exact absurd hff (by simp)
    · rintro ⟨hc1, hc2⟩
      push_neg at h1 h2
      have hgt : 1 < c := h2 hc1
      exact absurd (h1 hgt) (by linarith)

/-!  C7: unfiltered evaluation ignores stored filter state. -/

/-- **C7.**  On any non-empty cloud, `PointCloud.evaluate` with
`use_filtered_cloud = false` is insensitive to the stored filter state (same
result as on a cloud with no discarded indices and an infinite threshold),
and it reports: used cloud size equal to the full cloud size, a discarded
count of 0, and a filter threshold of infinity (`none`), regardless of the
threshold stored by a previous `filter_point_cloud` call. -/
theorem evaluate_unfiltered_ignores_filter_state (kdFind : V3 → V3)
    (dist : V3 → V3 → ℚ) (sqrtO : ℚ → ℚ) (pc : PointCloud)
    (objectMatrix initialCentroidMatrix : M4)
    (h : pc.vertices ≠ []) :
    evaluatePointCloud kdFind dist sqrtO pc objectMatrix initialCentroidMatrix false =
      evaluatePointCloud kdFind dist sqrtO ⟨pc.vertices, [], none⟩
        objectMatrix initialCentroidMatrix false ∧
    ∃ stats,
      evaluatePointCloud kdFind dist sqrtO pc objectMatrix initialCentroidMatrix false =
        some stats ∧
      stats.used_cloud_size = pc.vertices.length ∧
      stats.discarded_points = 0 ∧
      stats.filter_threshold = none ∧
      stats.used_filtered_cloud = false := by
  constructor
  · rfl
  · obtain ⟨v, vs, hv⟩ := List.exists_cons_of_ne_nil h
    simp only [evaluatePointCloud, hv, transformCloud3, List.map_cons, pyMean, pyMin, pyMax,
      Option.bind_eq_bind, Option.some_bind, List.length_cons, List.length_map]
    exact ⟨_, rfl, by simp, by simp, rfl, rfl⟩

/-- Witness for C7: a one-point cloud carrying stale filter state (index 0
discarded by an earlier call with threshold 5). -/
theorem evaluate_unfiltered_ignores_filter_state_witness :
    evaluatePointCloud (fun u => u) (fun _ _ => 0) (fun q => q)
        ⟨[fun _ => 0], [0], some 5⟩ 1 1 false =
      evaluatePointCloud (fun u => u) (fun _ _ => 0) (fun q => q)
        ⟨[fun _ => 0], [], none⟩ 1 1 false ∧
    ∃ stats,
      evaluatePointCloud (fun u => u) (fun _ _ => 0) (fun q => q)
          ⟨[fun _ => 0], [0], some 5⟩ 1 1 false = some stats ∧
      stats.used_cloud_size = (PointCloud.mk [fun _ => 0] [0] (some 5)).vertices.length ∧
      stats.discarded_points = 0 ∧
      stats.filter_threshold = none ∧
      stats.used_filtered_cloud = false :=
  evaluate_unfiltered_ignores_filter_state (fun u => u) (fun _ _ => 0) (fun q => q)
    ⟨[fun _ => 0], [0], some 5⟩ 1 1 (by simp)

/-!  C10: `add_point` fills the fixed-size arrays in call order. -/

/-- The cloud state after the points of `filled` have been added, in order:
indices `0 .. filled.length - 1` hold the added data, every other index still
holds the `np.empty` garbage, and `_last_point_set = filled.length - 1`. -/
def cloudAfter (n : ℕ) (initV initC : ℕ → V3) (filled : List (V3 × V3)) :
    CloudFillState :=
  { point_count := n
    vertices := fun i => if h : i < filled.length then (filled[i]).1 else initV i
    colors := fun i => if h : i < filled.length then (filled[i]).2 else initC i
    last_point_set := (filled.length : ℤ) - 1 }

lemma addPoint_cloudAfter (n : ℕ) (initV initC : ℕ → V3)
    (filled : List (V3 × V3)) (hlt : filled.length < n) (p : V3 × V3) :
    addPoint (cloudAfter n initV initC filled) p.1 p.2 =
      Except.ok (cloudAfter n initV initC (filled ++ [p])) := by
  unfold addPoint cloudAfter
  dsimp only
  rw [if_neg (by omega)]
  have hidx : (((filled.length : ℤ) - 1) + 1).toNat = filled.length := by omega
  rw [hidx]
  refine congrArg Except.ok ?_
  have hlen : (filled ++ [p]).length = filled.length + 1 := by
    simp
  ext1 <;> dsimp only
  · funext i
    rcases lt_trichotomy i filled.length with hi | hi | hi
    · rw [Function.update_noteq (by omega)]
      rw [dif_pos hi, dif_pos (show i < (filled ++ [p]).length by rw [hlen]; omega)]
      rw [List.getElem_append_left hi]
    · subst hi
      rw [Function.update_same]
      rw [dif_pos (show filled.length < (filled ++ [p]).length by rw [hlen]; omega)]
      rw [List.getElem_concat_length _ _ _ rfl]
    · rw [Function.update_noteq (by omega)]
      rw [dif_neg (by omega), dif_neg (show ¬ i < (filled ++ [p]).length by rw [hlen]; omega)]
  · funext i
    rcases lt_trichotomy i filled.length with hi | hi | hi
    · rw [Function.update_noteq (by omega)]
      rw [dif_pos hi, dif_pos (show i < (filled ++ [p]).length by rw [hlen]; omega)]
      rw [List.getElem_append_left hi]
    · subst hi
      rw [Function.update_same]
      rw [dif_pos (show filled.length < (filled ++ [p]).length by rw [hlen]; omega)]
      rw [List.getElem_concat_length _ _ _ rfl]
    · rw [Function.update_noteq (by omega)]
      rw [dif_neg (by omega), dif_neg (show ¬ i < (filled ++ [p]).length by rw [hlen]; omega)]
  · rw [hlen]
    push_cast
    ring

lemma addPoints_cloudAfter (n : ℕ) (initV initC : ℕ → V3) :
    ∀ (rest filled : List (V3 × V3)), filled.length + rest.length ≤ n →
      addPoints rest (cloudAfter n initV initC filled) =
        Except.ok (cloudAfter n initV initC (filled ++ rest)) := by
  intro rest
  induction rest with
  | nil => intro filled _; simp [addPoints]; rfl
  | cons p ps ih =>
    intro filled hle
    have hlt : filled.length < n := by
      simp only [List.length_cons] at hle; omega
    unfold addPoints
    rw [List.foldlM_cons]
    rw [addPoint_cloudAfter n initV initC filled hlt p]
    have hrec := ih (filled ++ [p]) (by
      simp only [List.length_append, List.length_cons, List.length_nil] at hle ⊢
      omega)
    unfold addPoints at hrec
    rw [List.append_assoc] at hrec
    simpa using hrec

/-- **C10.**  For a cloud constructed with `point_count = n` and a sequence
of exactly `n` `add_point` calls: all calls succeed, filling vertex and
colour indices `0 .. n-1` in call order (indices at or beyond `n` keep their
uninitialised contents — the arrays are never resized), the fill counter ends
at `n - 1`, and any further `add_point` call raises `RuntimeError` before
mutating anything. -/
theorem add_point_fills_then_raises (n : ℕ) (points : List (V3 × V3))
    (initV initC : ℕ → V3) (p c : V3) (hlen : points.length = n) :
    ∃ pc', addPoints points (initCloud n initV initC) = Except.ok pc' ∧
      pc'.vertices = (fun i => (points.map (fun q => q.1)).getD i (initV i)) ∧
      pc'.colors = (fun i => (points.map (fun q => q.2)).getD i (initC i)) ∧
      pc'.point_count = n ∧
      pc'.last_point_set = (n : ℤ) - 1 ∧
      addPoint pc' p c =
        Except.error "Trying to set more points than cloud dimensions!" := by
  subst hlen
  have hinit : initCloud points.length initV initC =
      cloudAfter points.length initV initC [] := by
    unfold initCloud cloudAfter
    ext1 <;> dsimp only
    · funext i
      rw [dif_neg (by simp)]
    · funext i
      rw [dif_neg (by simp)]
    · simp
  refine ⟨cloudAfter points.length initV initC points, ?_, ?_, ?_, rfl, rfl, ?_⟩
  · rw [hinit]
    have hrun := addPoints_cloudAfter points.length initV initC points [] (by simp)
    simpa using hrun
  · funext i
    dsimp only [cloudAfter]
    by_cases hi : i < points.length
    · rw [dif_pos hi, List.getD_eq_getElem _ _ (by simpa using hi), List.getElem_map]
    · rw [dif_neg hi, List.getD_eq_default _ _ (by simpa using hi)]
  · funext i
    dsimp only [cloudAfter]
    by_cases hi : i < points.length
    · rw [dif_pos hi, List.getD_eq_getElem _ _ (by simpa using hi), List.getElem_map]
    · rw [dif_neg hi, List.getD_eq_default _ _ (by simpa using hi)]
  · unfold addPoint
    dsimp only [cloudAfter]
    rw [if_pos (by omega)]

/-- Concrete data for the C10 witness: one point, one colour, garbage array
contents. -/
def wPos : V3 := fun _ => 2

def wCol : V3 := fun _ => 3

def wInitV : ℕ → V3 := fun _ _ => 7

def wInitC : ℕ → V3 := fun _ _ => 8

/-- Witness for C10: a cloud of size 1, filled by one call, with the second
call raising. -/
theorem add_point_fills_then_raises_witness :
    ∃ pc', addPoints [(wPos, wCol)] (initCloud 1 wInitV wInitC) = Except.ok pc' ∧
      pc'.vertices = (fun i => ([(wPos, wCol)].map (fun q => q.1)).getD i (wInitV i)) ∧
      pc'.colors = (fun i => ([(wPos, wCol)].map (fun q => q.2)).getD i (wInitC i)) ∧
      pc'.point_count = 1 ∧
      pc'.last_point_set = (1 : ℤ) - 1 ∧
      addPoint pc' wPos wCol =
        Except.error "Trying to set more points than cloud dimensions!" :=
  add_point_fills_then_raises 1 [(wPos, wCol)] wInitV wInitC wPos wCol rfl

end SfmFlow
